import Mathlib

/-!
Shallow embedding of the call-session and media-stream lifecycle manager of
`index-websocket.js` (and the overlapping parts of `index.js`).

JavaScript `Map` objects (`callSessions`, `mediaStreams`) are modelled as
association lists with `Map.set` / `Map.get` / `Map.delete` semantics.
Connection handles are opaque `Nat` identifiers; a `ws.close()` call is
recorded by appending the handle to a `closedConns` log, so "exactly one
physical close" is a statement about that log.  Timestamps (`new Date()`)
are passed in explicitly as `Nat` parameters.
-/

/-- JavaScript `Map.get`: the value stored under `k`, if any. -/
def mapGet (k : String) : List (String × α) → Option α
  | [] => none
  | p :: rest => if p.1 = k then some p.2 else mapGet k rest

/-- JavaScript `Map.set`: replace the entry under `k` if present, else append. -/
def mapSet (k : String) (v : α) : List (String × α) → List (String × α)
  | [] => [(k, v)]
  | p :: rest => if p.1 = k then (k, v) :: rest else p :: mapSet k v rest

/-- JavaScript `Map.delete`: remove the entry (all entries) stored under `k`. -/
def mapErase (k : String) : List (String × α) → List (String × α)
  | [] => []
  | p :: rest => if p.1 = k then mapErase k rest else p :: mapErase k rest

/-- Number of entries stored under key `k` (1 for any key present in a
well-formed JavaScript `Map`, 0 otherwise). -/
def countKey (k : String) : List (String × α) → Nat
  | [] => 0
  | p :: rest => (if p.1 = k then 1 else 0) + countKey k rest

/-- The per-call record stored in `VoiceAgent.callSessions` by
`handleIncoming`: `{ from, to, startTime, active }`. -/
structure CallRecord where
  from_ : String
  to_ : String
  startTime : Nat
  active : Bool
deriving DecidableEq, Repr

/-- The per-call stream session stored in `VoiceAgent.mediaStreams` by
`registerMediaStream`: `{ websocket, startTime, audioBuffer }`. -/
structure MediaStreamSession where
  websocket : Option Nat
  startTime : Nat
  audioBuffer : List String
deriving DecidableEq, Repr

/-- The mutable state of the `VoiceAgent` singleton, plus the log of
physical `ws.close()` calls issued so far. -/
structure AgentState where
  callSessions : List (String × CallRecord)
  mediaStreams : List (String × MediaStreamSession)
  closedConns : List Nat
deriving DecidableEq, Repr

/-- The state built by the `VoiceAgent` constructor: two empty maps
(and no close call issued yet). -/
def initialState : AgentState := ⟨[], [], []⟩

/-- `VoiceAgent.handleIncoming(callSid, from, to)`: unconditionally
`callSessions.set(callSid, { from, to, startTime: new Date(), active: true })`. -/
def handleIncoming (st : AgentState) (callSid from_ to_ : String) (now : Nat) : AgentState :=
  { st with callSessions := mapSet callSid ⟨from_, to_, now, true⟩ st.callSessions }

/-- `VoiceAgent.endCall(callSid)`: if the record exists, set its `active`
field to `false`; otherwise do nothing. -/
def endCall (st : AgentState) (callSid : String) : AgentState :=
  match mapGet callSid st.callSessions with
  | some r => { st with callSessions := mapSet callSid { r with active := false } st.callSessions }
  | none => st

/-- `VoiceAgent.registerMediaStream(callSid, websocket)`: unconditionally
`mediaStreams.set(callSid, { websocket, startTime: new Date(), audioBuffer: [] })`. -/
def registerMediaStream (st : AgentState) (callSid : String) (websocket now : Nat) : AgentState :=
  { st with mediaStreams := mapSet callSid ⟨some websocket, now, []⟩ st.mediaStreams }

/-- `VoiceAgent.getMediaStream(callSid)`: `mediaStreams.get(callSid)`. -/
def getMediaStream (st : AgentState) (callSid : String) : Option MediaStreamSession :=
  mapGet callSid st.mediaStreams

/-- `VoiceAgent.closeMediaStream(callSid)`: look the session up, call
`websocket.close()` when both the session and its handle exist, then
`mediaStreams.delete(callSid)`. -/
def closeMediaStream (st : AgentState) (callSid : String) : AgentState :=
  let closed :=
    match mapGet callSid st.mediaStreams with
    | some s =>
      match s.websocket with
      | some c => st.closedConns ++ [c]
      | none => st.closedConns
    | none => st.closedConns
  { st with mediaStreams := mapErase callSid st.mediaStreams, closedConns := closed }

/-- Framed JSON control messages arriving on the media WebSocket,
discriminated by their `event` field. -/
inductive WsEvent where
  | start : WsEvent
  | media (payload : String) : WsEvent
  | stop : WsEvent
deriving DecidableEq, Repr

/-- The `ws.on('message')` handler of `wss.on('connection')`: `start` only
logs, `media` appends `data.media.payload` to the session's `audioBuffer`
when a live session exists (no-op otherwise), `stop` tears the stream down. -/
def onWsMessage (st : AgentState) (callSid : String) (ev : WsEvent) : AgentState :=
  match ev with
  | WsEvent.start => st
  | WsEvent.media payload =>
    match mapGet callSid st.mediaStreams with
    | some s =>
      { st with mediaStreams :=
          mapSet callSid { s with audioBuffer := s.audioBuffer ++ [payload] } st.mediaStreams }
    | none => st
  | WsEvent.stop => closeMediaStream st callSid

/-- The `ws.on('close')` handler: `closeMediaStream(callSid)`. -/
def onWsClose (st : AgentState) (callSid : String) : AgentState :=
  closeMediaStream st callSid

/-- State effect of `POST /voice/end-call`: `endCall(CallSid)` then
`closeMediaStream(CallSid)`. -/
def endCallRoute (st : AgentState) (callSid : String) : AgentState :=
  closeMediaStream (endCall st callSid) callSid

/-- State effect of `POST /voice/status-callback`: the handler only logs and
replies `res.status(200).end()` — status `200`, no content type, no body. -/
def statusCallback (st : AgentState) (callSid callStatus : String) :
    AgentState × Nat × Option String :=
  (st, 200, none)

/-- `GET /voice/calls` body: the `callSessions` entries whose record has
`active` set (each rendered as `{ callSid, ...session }`). -/
def listActiveCalls (st : AgentState) : List (String × CallRecord) :=
  st.callSessions.filter (fun p => p.2.active)

/-- `GET /voice/calls` as a full route: returns the state (unchanged) and the
JSON payload `(activeCalls, calls)`. -/
def getCallsRoute (st : AgentState) : AgentState × Nat × List (String × CallRecord) :=
  (st, (listActiveCalls st).length, listActiveCalls st)

/-- JavaScript truthiness of an optional request-body string field:
`undefined` and the empty string are falsy, everything else truthy. -/
def jsTruthy : Option String → Bool
  | none => false
  | some s => !(s = "")

/-- TwiML verbs appended to the `VoiceResponse` by the `/voice/handle-input`
handler: `twiml.say(text, { voice })` and `twiml.hangup()`. -/
inductive TwimlVerb where
  | say (text voice : String) : TwimlVerb
  | hangup : TwimlVerb
deriving DecidableEq, Repr

/-- The `POST /voice/handle-input` handler (identical in `index.js` and
`index-websocket.js`): branch on the truthiness of `SpeechResult`, then
`Digits`, with a "No input received" fallback, and always `twiml.hangup()`. -/
def handleInput (speechResult digits : Option String) : List TwimlVerb :=
  if jsTruthy speechResult then
    [TwimlVerb.say ("I understood: " ++ speechResult.getD "") "Polly.Amy", TwimlVerb.hangup]
  else if jsTruthy digits then
    [TwimlVerb.say ("You pressed: " ++ digits.getD "") "Polly.Amy", TwimlVerb.hangup]
  else
    [TwimlVerb.say "No input received. Goodbye!" "Polly.Amy", TwimlVerb.hangup]

/-- The double-quote character, written via its code point. -/
def xmlQuote : Char := Char.ofNat 34

/-- The apostrophe character, written via its code point. -/
def xmlApos : Char := Char.ofNat 39

/-- Modelled from the spec: the escaping of one character of text by the
external TwiML document builder (the `twilio` library is not part of the
repository sources); the spec requires the echoed transcript to be
"HTML/XML-escaped if it contained reserved characters... like `<`, `>`, `&`,
or quotes". -/
def escapeChar (c : Char) : List Char :=
  if c = '&' then "&amp;".data
  else if c = '<' then "&lt;".data
  else if c = '>' then "&gt;".data
  else if c = xmlQuote then "&quot;".data
  else if c = xmlApos then "&apos;".data
  else [c]

/-- Modelled from the spec: XML-escaping of a whole text node, character by
character, as performed by the external TwiML document builder. -/
def escapeXml : List Char → List Char
  | [] => []
  | c :: rest => escapeChar c ++ escapeXml rest

/-- Fuel-bounded worker of the XML entity decoder. -/
def unescapeFuel : Nat → List Char → List Char
  | _, [] => []
  | 0, l => l
  | fuel+1, c :: rest =>
    if c = '&' then
      match rest with
      | 'a' :: 'm' :: 'p' :: ';' :: r => '&' :: unescapeFuel fuel r
      | 'l' :: 't' :: ';' :: r => '<' :: unescapeFuel fuel r
      | 'g' :: 't' :: ';' :: r => '>' :: unescapeFuel fuel r
      | 'q' :: 'u' :: 'o' :: 't' :: ';' :: r => Char.ofNat 34 :: unescapeFuel fuel r
      | 'a' :: 'p' :: 'o' :: 's' :: ';' :: r => Char.ofNat 39 :: unescapeFuel fuel r
      | _ => c :: unescapeFuel fuel rest
    else c :: unescapeFuel fuel rest

/-- Standard XML entity decoding, the left inverse of `escapeXml`, used to
state that the escaping is lossless (the emitted document denotes exactly the
original transcript); every decoding step consumes at least one character, so
fuel equal to the input length always suffices. -/
def unescapeXml (l : List Char) : List Char := unescapeFuel l.length l

/-- Modelled from the spec: serialization of one TwiML verb by the external
document builder, escaping text content and attribute values. -/
def renderVerb : TwimlVerb → List Char
  | TwimlVerb.say text voice =>
    "<Say voice=".data ++ [xmlQuote] ++ escapeXml voice.data ++ [xmlQuote] ++ ">".data
      ++ escapeXml text.data ++ "</Say>".data
  | TwimlVerb.hangup => "<Hangup/>".data

/-- Serialization of a verb sequence. -/
def renderVerbs : List TwimlVerb → List Char
  | [] => []
  | v :: vs => renderVerb v ++ renderVerbs vs

/-- Modelled from the spec: serialization of the whole call-control document
(`twiml.toString()`), the verbs wrapped in a `Response` element. -/
def renderTwiml (vs : List TwimlVerb) : List Char :=
  "<Response>".data ++ renderVerbs vs ++ "</Response>".data

/-- Outcome of the `server.on('upgrade')` handler: either the request is
handed to the WebSocket server with the extracted call identifier, or the
socket is destroyed. -/
inductive UpgradeResult where
  | accepted (callSid : List Char) : UpgradeResult
  | destroyed : UpgradeResult
deriving DecidableEq, Repr

/-- The path test of `server.on('upgrade')`: Boolean translation of
`pathname.match(/^\/media\/([A-Za-z0-9]+)$/)`, `Char.isAlphanum` being
exactly the ASCII class `[A-Za-z0-9]`. -/
def matchMediaPath : List Char → Option (List Char)
  | '/' :: 'm' :: 'e' :: 'd' :: 'i' :: 'a' :: '/' :: rest =>
    if !rest.isEmpty && rest.all Char.isAlphanum then some rest else none
  | _ => none

/-- The `wss.on('connection')` handler: registers the media stream for the
call identifier carried by the request (it also sends a `connected`
acknowledgment, which carries no state). -/
def onConnection (st : AgentState) (callSid : String) (websocket now : Nat) : AgentState :=
  registerMediaStream st callSid websocket now

/-- The `server.on('upgrade')` handler: on a path match, extract the call
identifier and hand the connection to `wss.on('connection')`; otherwise
`socket.destroy()` without touching any state. -/
def onUpgrade (st : AgentState) (path : List Char) (websocket now : Nat) :
    UpgradeResult × AgentState :=
  match matchMediaPath path with
  | some callSid => (UpgradeResult.accepted callSid, onConnection st (String.mk callSid) websocket now)
  | none => (UpgradeResult.destroyed, st)

/-- The three sources of a teardown for a media stream session: the `stop`
control message, the WebSocket `close` notification, and the
`POST /voice/end-call` request. -/
inductive TeardownTrigger where
  | stopEvent : TeardownTrigger
  | closeEvent : TeardownTrigger
  | endCallReq : TeardownTrigger
deriving DecidableEq, Repr

/-- Dispatch of one teardown trigger for `callSid` to the corresponding
handler in the source. -/
def applyTeardown (st : AgentState) (callSid : String) : TeardownTrigger → AgentState
  | TeardownTrigger.stopEvent => onWsMessage st callSid WsEvent.stop
  | TeardownTrigger.closeEvent => onWsClose st callSid
  | TeardownTrigger.endCallReq => endCallRoute st callSid

/-- A whole sequence of teardown triggers for `callSid`, applied in order. -/
def applyTeardowns (st : AgentState) (callSid : String) (trs : List TeardownTrigger) : AgentState :=
  trs.foldl (fun acc tr => applyTeardown acc callSid tr) st

/-! ### Association-list lemmas -/

theorem mapGet_mapSet_self (k : String) (v : α) (l : List (String × α)) :
    mapGet k (mapSet k v l) = some v := by
  induction l with
  | nil => simp [mapSet, mapGet]
  | cons p rest ih =>
    by_cases h : p.1 = k
    · simp [mapSet, mapGet, h]
    · simp [mapSet, mapGet, h, ih]

theorem mapGet_mapErase_self (k : String) (l : List (String × α)) :
    mapGet k (mapErase k l) = none := by
  induction l with
  | nil => simp [mapErase, mapGet]
  | cons p rest ih =>
    by_cases h : p.1 = k
    · simp [mapErase, h, ih]
    · simp [mapErase, mapGet, h, ih]

theorem countKey_mapSet_of_le_one (k : String) (v : α) (l : List (String × α))
    (h : countKey k l ≤ 1) : countKey k (mapSet k v l) = 1 := by
  induction l with
  | nil => simp [mapSet, countKey]
  | cons p rest ih =>
    by_cases hp : p.1 = k
    · have hz : countKey k rest = 0 := by
        simp [countKey, hp] at h
        omega
      simp [mapSet, countKey, hp, hz]
    · simp [countKey, hp] at h
      simp [mapSet, countKey, hp, ih h]

/-! ### Claim theorems -/

/-- C1 (counterexample): with a live session for `CA1` (connection handle 1,
one buffered frame), a second `registerMediaStream` call for `CA1` does not
fail: it succeeds and replaces the session, so the first session's connection
handle and audio buffer are not retained. -/
theorem register_duplicate_not_rejected :
    getMediaStream
        (registerMediaStream
          (onWsMessage (registerMediaStream initialState "CA1" 1 0) "CA1" (WsEvent.media "f0"))
          "CA1" 2 5)
        "CA1" = some ⟨some 2, 5, []⟩ ∧
    getMediaStream
        (registerMediaStream
          (onWsMessage (registerMediaStream initialState "CA1" 1 0) "CA1" (WsEvent.media "f0"))
          "CA1" 2 5)
        "CA1" ≠
      getMediaStream
        (onWsMessage (registerMediaStream initialState "CA1" 1 0) "CA1" (WsEvent.media "f0"))
        "CA1" := by
  constructor
  · decide
  · decide

/-- C1 (amended): a second `registerMediaStream` call for an identifier with a
live session succeeds and replaces that session with a fresh one (the new
connection handle, the new start time, an empty audio buffer); the registry
still holds exactly one session for the identifier afterwards, so at most one
stream session is registered per identifier at a time. -/
theorem register_replaces_single_entry (st : AgentState) (callSid : String)
    (websocket now : Nat) (h : countKey callSid st.mediaStreams ≤ 1) :
    getMediaStream (registerMediaStream st callSid websocket now) callSid
      = some ⟨some websocket, now, []⟩ ∧
    countKey callSid (registerMediaStream st callSid websocket now).mediaStreams = 1 := by
  constructor
  · simp [getMediaStream, registerMediaStream, mapGet_mapSet_self]
  · simp [registerMediaStream, countKey_mapSet_of_le_one _ _ _ h]

/-- C1 (witness for the amended theorem), at a state that already holds a live
session for `CA1`. -/
theorem register_replaces_single_entry_witness :
    getMediaStream
        (registerMediaStream (registerMediaStream initialState "CA1" 1 0) "CA1" 2 5) "CA1"
      = some ⟨some 2, 5, []⟩ ∧
    countKey "CA1"
        (registerMediaStream (registerMediaStream initialState "CA1" 1 0) "CA1" 2 5).mediaStreams
      = 1 :=
  register_replaces_single_entry (registerMediaStream initialState "CA1" 1 0) "CA1" 2 5
    (by decide)

/-- C2 (counterexample): a second "incoming call" event for `CA1` does not
leave the existing record unchanged — origin, destination and creation
timestamp are all overwritten by the duplicate. -/
theorem incoming_duplicate_overwrites_record :
    mapGet "CA1"
        (handleIncoming (handleIncoming initialState "CA1" "+15551234567" "+15555678901" 1)
          "CA1" "+15559999999" "+15550000000" 2).callSessions
      = some ⟨"+15559999999", "+15550000000", 2, true⟩ ∧
    mapGet "CA1"
        (handleIncoming (handleIncoming initialState "CA1" "+15551234567" "+15555678901" 1)
          "CA1" "+15559999999" "+15550000000" 2).callSessions
      ≠ mapGet "CA1"
          (handleIncoming initialState "CA1" "+15551234567" "+15555678901" 1).callSessions := by
  constructor
  · decide
  · decide

/-- C2 (amended): a second "incoming call" event for the same identifier still
yields exactly one CallRecord for that identifier, but the duplicate
overwrites the existing record with a fresh one built from the duplicate
event (its origin, destination and timestamp, and `active := true`). -/
theorem incoming_duplicate_single_fresh_record (st : AgentState)
    (callSid from_ to_ : String) (now : Nat)
    (h : countKey callSid st.callSessions ≤ 1) :
    countKey callSid (handleIncoming st callSid from_ to_ now).callSessions = 1 ∧
    mapGet callSid (handleIncoming st callSid from_ to_ now).callSessions
      = some ⟨from_, to_, now, true⟩ := by
  constructor
  · simp [handleIncoming, countKey_mapSet_of_le_one _ _ _ h]
  · simp [handleIncoming, mapGet_mapSet_self]

/-- C2 (witness for the amended theorem), at a state that already holds a
record for `CA1`. -/
theorem incoming_duplicate_single_fresh_record_witness :
    countKey "CA1"
        (handleIncoming (handleIncoming initialState "CA1" "+15551234567" "+15555678901" 1)
          "CA1" "+15559999999" "+15550000000" 2).callSessions = 1 ∧
    mapGet "CA1"
        (handleIncoming (handleIncoming initialState "CA1" "+15551234567" "+15555678901" 1)
          "CA1" "+15559999999" "+15550000000" 2).callSessions
      = some ⟨"+15559999999", "+15550000000", 2, true⟩ :=
  incoming_duplicate_single_fresh_record
    (handleIncoming initialState "CA1" "+15551234567" "+15555678901" 1)
    "CA1" "+15559999999" "+15550000000" 2 (by decide)

/-- C5 (counterexample): processing a terminal status notification
(`CallStatus = "completed"`) for `CA1` does not mark the CallRecord for `CA1`
inactive — the record still has `active = true` afterwards. -/
theorem status_callback_leaves_record_active :
    mapGet "CA1"
        ((statusCallback (handleIncoming initialState "CA1" "+15551234567" "+15555678901" 1)
          "CA1" "completed").1).callSessions
      = some ⟨"+15551234567", "+15555678901", 1, true⟩ := by
  decide

/-- C5 (amended): processing a status notification returns an empty 200
acknowledgment with no response body and leaves the agent state completely
unchanged: the CallRecord is neither marked inactive nor physically removed
from the store (marking inactive happens only through the end-call event). -/
theorem status_callback_pure_ack (st : AgentState) (callSid callStatus : String) :
    statusCallback st callSid callStatus = (st, 200, none) ∧
    mapGet callSid ((statusCallback st callSid callStatus).1).callSessions
      = mapGet callSid st.callSessions := by
  exact ⟨rfl, rfl⟩

/-- C7: the active-calls listing contains exactly the stored entries whose
record has the `active` flag set, and the route leaves the store unchanged
(snapshot semantics). -/
theorem active_calls_listing_exact (st : AgentState) (callSid : String) (r : CallRecord) :
    ((callSid, r) ∈ listActiveCalls st ↔ (callSid, r) ∈ st.callSessions ∧ r.active = true) ∧
    (getCallsRoute st).1 = st := by
  refine ⟨?_, rfl⟩
  simp [listActiveCalls, List.mem_filter]

/-- C8: an inbound media frame for an identifier with no live session leaves
the state exactly unchanged (no session created, no buffer written); with a
live session, the frame payload is appended to that session's audio buffer
and nothing else changes. -/
theorem media_frame_noop_or_append (st : AgentState) (callSid : String) (frame : String) :
    (getMediaStream st callSid = none → onWsMessage st callSid (WsEvent.media frame) = st) ∧
    (∀ s, getMediaStream st callSid = some s →
      getMediaStream (onWsMessage st callSid (WsEvent.media frame)) callSid
        = some { s with audioBuffer := s.audioBuffer ++ [frame] } ∧
      (onWsMessage st callSid (WsEvent.media frame)).callSessions = st.callSessions ∧
      (onWsMessage st callSid (WsEvent.media frame)).closedConns = st.closedConns) := by
  constructor
  · intro h
    unfold getMediaStream at h
    simp [onWsMessage, h]
  · intro s h
    unfold getMediaStream at h
    simp [onWsMessage, h, getMediaStream, mapGet_mapSet_self]

/-- C8 (witness): a late frame after teardown of `CA2` is a no-op, and a frame
on a live session for `CA2` is appended. -/
theorem media_frame_noop_or_append_witness :
    onWsMessage (onWsMessage (registerMediaStream initialState "CA2" 1 0) "CA2" WsEvent.stop)
        "CA2" (WsEvent.media "late") =
      onWsMessage (registerMediaStream initialState "CA2" 1 0) "CA2" WsEvent.stop :=
  (media_frame_noop_or_append
      (onWsMessage (registerMediaStream initialState "CA2" 1 0) "CA2" WsEvent.stop)
      "CA2" "late").1 (by decide)

theorem endCall_mediaStreams (st : AgentState) (callSid : String) :
    (endCall st callSid).mediaStreams = st.mediaStreams ∧
    (endCall st callSid).closedConns = st.closedConns := by
  unfold endCall
  split <;> simp

theorem closeMediaStream_live (st : AgentState) (callSid : String)
    (s : MediaStreamSession) (c : Nat)
    (h : mapGet callSid st.mediaStreams = some s) (hc : s.websocket = some c) :
    getMediaStream (closeMediaStream st callSid) callSid = none ∧
    (closeMediaStream st callSid).closedConns = st.closedConns ++ [c] := by
  unfold closeMediaStream
  simp [h, hc, getMediaStream, mapGet_mapErase_self]

theorem closeMediaStream_dead (st : AgentState) (callSid : String)
    (h : mapGet callSid st.mediaStreams = none) :
    getMediaStream (closeMediaStream st callSid) callSid = none ∧
    (closeMediaStream st callSid).closedConns = st.closedConns := by
  unfold closeMediaStream
  simp [h, getMediaStream, mapGet_mapErase_self]

theorem applyTeardown_live (st : AgentState) (callSid : String)
    (s : MediaStreamSession) (c : Nat) (tr : TeardownTrigger)
    (h : getMediaStream st callSid = some s) (hc : s.websocket = some c) :
    getMediaStream (applyTeardown st callSid tr) callSid = none ∧
    (applyTeardown st callSid tr).closedConns = st.closedConns ++ [c] := by
  unfold getMediaStream at h
  cases tr with
  | stopEvent => exact closeMediaStream_live st callSid s c h hc
  | closeEvent => exact closeMediaStream_live st callSid s c h hc
  | endCallReq =>
    have hm := endCall_mediaStreams st callSid
    have h2 : mapGet callSid (endCall st callSid).mediaStreams = some s := by
      rw [hm.1]; exact h
    have h3 := closeMediaStream_live (endCall st callSid) callSid s c h2 hc
    constructor
    · exact h3.1
    · show (closeMediaStream (endCall st callSid) callSid).closedConns = st.closedConns ++ [c]
      rw [h3.2, hm.2]

theorem applyTeardown_dead (st : AgentState) (callSid : String) (tr : TeardownTrigger)
    (h : getMediaStream st callSid = none) :
    getMediaStream (applyTeardown st callSid tr) callSid = none ∧
    (applyTeardown st callSid tr).closedConns = st.closedConns := by
  unfold getMediaStream at h
  cases tr with
  | stopEvent => exact closeMediaStream_dead st callSid h
  | closeEvent => exact closeMediaStream_dead st callSid h
  | endCallReq =>
    have hm := endCall_mediaStreams st callSid
    have h2 : mapGet callSid (endCall st callSid).mediaStreams = none := by
      rw [hm.1]; exact h
    have h3 := closeMediaStream_dead (endCall st callSid) callSid h2
    constructor
    · exact h3.1
    · show (closeMediaStream (endCall st callSid) callSid).closedConns = st.closedConns
      rw [h3.2, hm.2]

theorem applyTeardowns_dead (callSid : String) (trs : List TeardownTrigger) :
    ∀ st : AgentState, getMediaStream st callSid = none →
      getMediaStream (applyTeardowns st callSid trs) callSid = none ∧
      (applyTeardowns st callSid trs).closedConns = st.closedConns := by
  induction trs with
  | nil => intro st h; exact ⟨h, rfl⟩
  | cons t rest ih =>
    intro st h
    have h1 := applyTeardown_dead st callSid t h
    have h2 := ih (applyTeardown st callSid t) h1.1
    unfold applyTeardowns at h2 ⊢
    rw [List.foldl_cons]
    exact ⟨h2.1, by rw [h2.2, h1.2]⟩

/-- C3: teardown is idempotent — starting from a live session for `callSid`
with connection handle `c`, any nonempty sequence of teardown triggers
(`stop` event, WebSocket close notification, end-call request, in any mix and
order) results in exactly one physical close of `c` (the close log grows by
exactly `[c]`) and afterwards the registry contains no entry for `callSid`. -/
theorem teardown_idempotent_single_close (st : AgentState) (callSid : String)
    (s : MediaStreamSession) (c : Nat) (trs : List TeardownTrigger)
    (hne : trs ≠ []) (hs : getMediaStream st callSid = some s)
    (hc : s.websocket = some c) :
    getMediaStream (applyTeardowns st callSid trs) callSid = none ∧
    (applyTeardowns st callSid trs).closedConns = st.closedConns ++ [c] := by
  cases trs with
  | nil => exact absurd rfl hne
  | cons t rest =>
    have h1 := applyTeardown_live st callSid s c t hs hc
    have h2 := applyTeardowns_dead callSid rest (applyTeardown st callSid t) h1.1
    unfold applyTeardowns at h2 ⊢
    rw [List.foldl_cons]
    exact ⟨h2.1, by rw [h2.2, h1.2]⟩

/-- C3 (witness): for a freshly registered session for `CA2` on connection 7,
the trigger sequence stop, then close notification, then end-call request
closes connection 7 exactly once and leaves no registry entry. -/
theorem teardown_idempotent_single_close_witness :
    getMediaStream
        (applyTeardowns (registerMediaStream initialState "CA2" 7 0) "CA2"
          [TeardownTrigger.stopEvent, TeardownTrigger.closeEvent, TeardownTrigger.endCallReq])
        "CA2" = none ∧
    (applyTeardowns (registerMediaStream initialState "CA2" 7 0) "CA2"
        [TeardownTrigger.stopEvent, TeardownTrigger.closeEvent, TeardownTrigger.endCallReq]).closedConns
      = (registerMediaStream initialState "CA2" 7 0).closedConns ++ [7] :=
  teardown_idempotent_single_close (registerMediaStream initialState "CA2" 7 0) "CA2"
    ⟨some 7, 0, []⟩ 7
    [TeardownTrigger.stopEvent, TeardownTrigger.closeEvent, TeardownTrigger.endCallReq]
    (by decide) (by decide) rfl

/-- C4 (counterexample): an input event whose transcript field is present but
equal to the empty string, with digits `"5"` also present, does not select
the transcript-echo branch as the claim requires — the handler acknowledges
the digits instead. -/
theorem handle_input_empty_transcript_not_echoed :
    handleInput (some "") (some "5")
      = [TwimlVerb.say "You pressed: 5" "Polly.Amy", TwimlVerb.hangup] ∧
    handleInput (some "") (some "5")
      ≠ [TwimlVerb.say ("I understood: " ++ "") "Polly.Amy", TwimlVerb.hangup] := by
  constructor
  · decide
  · decide

/-- C4 (amended): for every input-received event, if a non-empty transcript is
present the response echoes it; else if a non-empty digits field is present
the response acknowledges the digits; else the "no input received" utterance
is emitted — and in all three branches the response ends with a hangup
directive, so the dialog lands in the terminal state after one input. -/
theorem handle_input_branches (speechResult digits : Option String) :
    (jsTruthy speechResult = true →
      handleInput speechResult digits
        = [TwimlVerb.say ("I understood: " ++ speechResult.getD "") "Polly.Amy",
           TwimlVerb.hangup]) ∧
    (jsTruthy speechResult = false → jsTruthy digits = true →
      handleInput speechResult digits
        = [TwimlVerb.say ("You pressed: " ++ digits.getD "") "Polly.Amy", TwimlVerb.hangup]) ∧
    (jsTruthy speechResult = false → jsTruthy digits = false →
      handleInput speechResult digits
        = [TwimlVerb.say "No input received. Goodbye!" "Polly.Amy", TwimlVerb.hangup]) ∧
    (handleInput speechResult digits).getLast? = some TwimlVerb.hangup := by
  refine ⟨fun h => by simp [handleInput, h], fun h1 h2 => by simp [handleInput, h1, h2],
    fun h1 h2 => by simp [handleInput, h1, h2], ?_⟩
  unfold handleInput
  split
  · rfl
  · split
    · rfl
    · rfl

/-- C4 (witness for the amended theorem): a non-empty transcript is echoed and
the response ends with a hangup directive. -/
theorem handle_input_branches_witness :
    handleInput (some "hello") none
      = [TwimlVerb.say ("I understood: " ++ "hello") "Polly.Amy", TwimlVerb.hangup] ∧
    (handleInput (some "hello") none).getLast? = some TwimlVerb.hangup :=
  ⟨(handle_input_branches (some "hello") none).1 (by decide),
   (handle_input_branches (some "hello") none).2.2.2⟩

/-- C10: an input event whose transcript field is present but empty is handled
exactly like one with no transcript at all — the digits branch is selected
when a non-empty digits field is present, otherwise the "no input received"
branch; the transcript-echo branch is never selected. -/
theorem handle_input_empty_transcript_as_absent (digits : Option String) :
    handleInput (some "") digits = handleInput none digits ∧
    handleInput (some "") digits =
      (if jsTruthy digits then
        [TwimlVerb.say ("You pressed: " ++ digits.getD "") "Polly.Amy", TwimlVerb.hangup]
      else
        [TwimlVerb.say "No input received. Goodbye!" "Polly.Amy", TwimlVerb.hangup]) := by
  constructor
  · simp [handleInput, jsTruthy]
  · simp [handleInput, jsTruthy]

theorem matchMediaPath_eq_some (path id : List Char) :
    matchMediaPath path = some id ↔
      (path = "/media/".data ++ id ∧ id ≠ [] ∧ id.all Char.isAlphanum = true) := by
  have hpre : "/media/".data = ['/', 'm', 'e', 'd', 'i', 'a', '/'] := rfl
  constructor
  · intro h
    unfold matchMediaPath at h
    split at h
    · next rest =>
      split at h
      · next hcond =>
        obtain rfl : rest = id := Option.some.inj h
        rw [hpre]
        refine ⟨rfl, ?_, ?_⟩
        · intro hnil
          rw [hnil] at hcond
          simp at hcond
        · simp at hcond
          simpa using hcond.2
      · exact absurd h (by simp)
    · exact absurd h (by simp)
  · rintro ⟨rfl, hne, hall⟩
    rw [hpre]
    show matchMediaPath ('/' :: 'm' :: 'e' :: 'd' :: 'i' :: 'a' :: '/' :: id) = some id
    unfold matchMediaPath
    have hie : id.isEmpty = false := by
      cases id with
      | nil => exact absurd rfl hne
      | cons c cs => rfl
    simp [hie, hall]

/-- C9: an upgrade request is accepted, with call identifier `id` handed to
the stream layer, exactly when its path is `/media/<id>` for a non-empty
alphanumeric `<id>`; acceptance registers a stream session for `id` with the
Media Stream Manager, and any other path has the socket destroyed with the
state untouched — no session registered. -/
theorem upgrade_routing_exact (st : AgentState) (path : List Char) (websocket now : Nat) :
    (∀ id, (onUpgrade st path websocket now).1 = UpgradeResult.accepted id ↔
      (path = "/media/".data ++ id ∧ id ≠ [] ∧ id.all Char.isAlphanum = true)) ∧
    (∀ id, (onUpgrade st path websocket now).1 = UpgradeResult.accepted id →
      getMediaStream (onUpgrade st path websocket now).2 (String.mk id)
        = some ⟨some websocket, now, []⟩) ∧
    ((onUpgrade st path websocket now).1 = UpgradeResult.destroyed →
      (onUpgrade st path websocket now).2 = st) := by
  refine ⟨?_, ?_, ?_⟩
  · intro id
    constructor
    · intro h
      rcases hmm : matchMediaPath path with _ | cs
      · simp [onUpgrade, hmm] at h
      · simp [onUpgrade, hmm] at h
        exact h ▸ (matchMediaPath_eq_some path cs).mp hmm
    · intro hspec
      have hm : matchMediaPath path = some id := (matchMediaPath_eq_some path id).mpr hspec
      simp [onUpgrade, hm]
  · intro id h
    rcases hmm : matchMediaPath path with _ | cs
    · simp [onUpgrade, hmm] at h
    · simp [onUpgrade, hmm] at h
      subst h
      simp [onUpgrade, hmm, onConnection, registerMediaStream, getMediaStream, mapGet_mapSet_self]
  · intro h
    rcases hmm : matchMediaPath path with _ | cs
    · simp [onUpgrade, hmm]
    · simp [onUpgrade, hmm] at h

/-- C9 (witness): the path `/media/CA1` is accepted and registers a session
for `CA1`; the path `/nope` is destroyed and leaves the state unchanged. -/
theorem upgrade_routing_exact_witness :
    (onUpgrade initialState "/media/CA1".data 7 0).1 = UpgradeResult.accepted "CA1".data ∧
    getMediaStream (onUpgrade initialState "/media/CA1".data 7 0).2 (String.mk "CA1".data)
      = some ⟨some 7, 0, []⟩ ∧
    (onUpgrade initialState "/nope".data 7 0).2 = initialState :=
  ⟨((upgrade_routing_exact initialState "/media/CA1".data 7 0).1 "CA1".data).mpr
      ⟨by decide, by decide, by decide⟩,
   (upgrade_routing_exact initialState "/media/CA1".data 7 0).2.1 "CA1".data
     (((upgrade_routing_exact initialState "/media/CA1".data 7 0).1 "CA1".data).mpr
       ⟨by decide, by decide, by decide⟩),
   (upgrade_routing_exact initialState "/nope".data 7 0).2.2 (by decide)⟩

theorem escapeChar_amp : escapeChar '&' = "&amp;".data := by decide

theorem escapeChar_lt : escapeChar '<' = "&lt;".data := by decide

theorem escapeChar_gt : escapeChar '>' = "&gt;".data := by decide

theorem escapeChar_quote : escapeChar xmlQuote = "&quot;".data := by decide

theorem escapeChar_apos : escapeChar xmlApos = "&apos;".data := by decide

theorem escapeChar_plain (c : Char) (h1 : ¬ c = '&') (h2 : ¬ c = '<') (h3 : ¬ c = '>')
    (h4 : ¬ c = xmlQuote) (h5 : ¬ c = xmlApos) : escapeChar c = [c] := by
  simp [escapeChar, h1, h2, h3, h4, h5]

theorem unescapeFuel_nil (f : Nat) : unescapeFuel f [] = [] := by
  cases f <;> rfl

theorem unescapeFuel_cons_ne (f : Nat) (c : Char) (t : List Char) (h : ¬ c = '&') :
    unescapeFuel (f + 1) (c :: t) = c :: unescapeFuel f t := by
  simp only [unescapeFuel]
  rw [if_neg h]

theorem unescapeFuel_escape (s : List Char) :
    ∀ f, (escapeXml s).length ≤ f → unescapeFuel f (escapeXml s) = s := by
  induction s with
  | nil => intro f _; exact unescapeFuel_nil f
  | cons c t ih =>
    intro f hf
    by_cases h1 : c = '&'
    · subst h1
      have hlen : escapeXml ('&' :: t) = '&' :: 'a' :: 'm' :: 'p' :: ';' :: escapeXml t := rfl
      rw [hlen] at hf ⊢
      simp only [List.length_cons] at hf
      cases f with
      | zero => omega
      | succ f =>
        show '&' :: unescapeFuel f (escapeXml t) = '&' :: t
        exact congrArg _ (ih f (by omega))
    by_cases h2 : c = '<'
    · subst h2
      have hlen : escapeXml ('<' :: t) = '&' :: 'l' :: 't' :: ';' :: escapeXml t := rfl
      rw [hlen] at hf ⊢
      simp only [List.length_cons] at hf
      cases f with
      | zero => omega
      | succ f =>
        show '<' :: unescapeFuel f (escapeXml t) = '<' :: t
        exact congrArg _ (ih f (by omega))
    by_cases h3 : c = '>'
    · subst h3
      have hlen : escapeXml ('>' :: t) = '&' :: 'g' :: 't' :: ';' :: escapeXml t := rfl
      rw [hlen] at hf ⊢
      simp only [List.length_cons] at hf
      cases f with
      | zero => omega
      | succ f =>
        show '>' :: unescapeFuel f (escapeXml t) = '>' :: t
        exact congrArg _ (ih f (by omega))
    by_cases h4 : c = xmlQuote
    · subst h4
      have hlen : escapeXml (xmlQuote :: t) = '&' :: 'q' :: 'u' :: 'o' :: 't' :: ';' :: escapeXml t := rfl
      rw [hlen] at hf ⊢
      simp only [List.length_cons] at hf
      cases f with
      | zero => omega
      | succ f =>
        show Char.ofNat 34 :: unescapeFuel f (escapeXml t) = xmlQuote :: t
        exact congrArg _ (ih f (by omega))
    by_cases h5 : c = xmlApos
    · subst h5
      have hlen : escapeXml (xmlApos :: t) = '&' :: 'a' :: 'p' :: 'o' :: 's' :: ';' :: escapeXml t := rfl
      rw [hlen] at hf ⊢
      simp only [List.length_cons] at hf
      cases f with
      | zero => omega
      | succ f =>
        show Char.ofNat 39 :: unescapeFuel f (escapeXml t) = xmlApos :: t
        exact congrArg _ (ih f (by omega))
    · have hch : escapeChar c = [c] := escapeChar_plain c h1 h2 h3 h4 h5
      have hcons : escapeXml (c :: t) = c :: escapeXml t := by
        show escapeChar c ++ escapeXml t = _
        rw [hch]
        rfl
      rw [hcons] at hf ⊢
      simp only [List.length_cons] at hf
      cases f with
      | zero => omega
      | succ f =>
        rw [unescapeFuel_cons_ne f c _ h1]
        exact congrArg _ (ih f (by omega))

theorem unescape_escape (s : List Char) : unescapeXml (escapeXml s) = s :=
  unescapeFuel_escape s (escapeXml s).length le_rfl

theorem escapeChar_safe (c : Char) :
    (escapeChar c).all (fun d => !(d = '<' || d = '>' || d = xmlQuote || d = xmlApos)) = true := by
  unfold escapeChar
  split_ifs with h1 h2 h3 h4 h5
  · decide
  · decide
  · decide
  · decide
  · decide
  · simp [h2, h3, h4, h5]

theorem escapeXml_safe (s : List Char) :
    (escapeXml s).all (fun d => !(d = '<' || d = '>' || d = xmlQuote || d = xmlApos)) = true := by
  induction s with
  | nil => rfl
  | cons c t ih =>
    show (escapeChar c ++ escapeXml t).all _ = true
    rw [List.all_append, escapeChar_safe c, ih]
    rfl

/-- C6: for every input event carrying a non-empty transcript `t`, the handler
echoes `t` and includes a hangup (disconnect) directive, and the serialized
call-control document embeds the echo text XML-escaped: the escaping is
lossless (`unescapeXml` recovers the exact text) and its output contains no
raw `<`, `>` or quote characters, so the document stays syntactically valid
even when the transcript contains XML reserved characters. -/
theorem transcript_echo_escaped (t : String) (digits : Option String) (h : ¬ t = "") :
    handleInput (some t) digits
      = [TwimlVerb.say ("I understood: " ++ t) "Polly.Amy", TwimlVerb.hangup] ∧
    renderTwiml (handleInput (some t) digits)
      = "<Response>".data
          ++ ("<Say voice=".data ++ [xmlQuote] ++ escapeXml "Polly.Amy".data ++ [xmlQuote]
              ++ ">".data ++ escapeXml ("I understood: " ++ t).data ++ "</Say>".data)
          ++ "<Hangup/>".data ++ "</Response>".data ∧
    unescapeXml (escapeXml ("I understood: " ++ t).data) = ("I understood: " ++ t).data ∧
    (escapeXml ("I understood: " ++ t).data).all
        (fun d => !(d = '<' || d = '>' || d = xmlQuote || d = xmlApos)) = true := by
  have hh : handleInput (some t) digits
      = [TwimlVerb.say ("I understood: " ++ t) "Polly.Amy", TwimlVerb.hangup] := by
    simp [handleInput, jsTruthy, h]
  refine ⟨hh, ?_, unescape_escape _, escapeXml_safe _⟩
  rw [hh]
  simp [renderTwiml, renderVerbs, renderVerb]

/-- C6 (witness): the transcript `a<b>&` is echoed, and escaping it is
lossless. -/
theorem transcript_echo_escaped_witness :
    handleInput (some "a<b>&") none
      = [TwimlVerb.say ("I understood: " ++ "a<b>&") "Polly.Amy", TwimlVerb.hangup] ∧
    unescapeXml (escapeXml ("I understood: " ++ "a<b>&").data)
      = ("I understood: " ++ "a<b>&").data :=
  ⟨(transcript_echo_escaped "a<b>&" none (by decide)).1,
   (transcript_echo_escaped "a<b>&" none (by decide)).2.2.1⟩
